import Mathlib

/-!
Shallow embedding of the Redmine-to-Jira migration pipeline
(src/main.py, src/utils/_exporter.py, src/utils/_importer.py,
src/utils/_ratelimiter.py), with theorems settling the spec claims.

Python dictionaries holding JSON-like data are modelled as association
lists of `String × Value`; Python exceptions are modelled explicitly as
values of an exception type threaded through `Except` / `Option`; the
wall clock used by the rate limiter is modelled as a rational number,
with `time.sleep` advancing it by exactly the requested amount.
-/

namespace RedmineJira

/-! ### `html.escape` (used by `sanitize_input` in both exporter and importer)

Python's `html.escape` with the default `quote=True` replaces the five
characters below by their entities; the sequential `str.replace` calls in
CPython are equivalent to this per-character map because none of the
replacement texts contains a character that a later replacement rewrites. -/

def escape_char (c : Char) : String :=
  if c = '&' then "&amp;"
  else if c = '<' then "&lt;"
  else if c = '>' then "&gt;"
  else if c = '"' then "&quot;"
  else if c = '\'' then "&#x27;"
  else String.singleton c

def html_escape (s : String) : String :=
  String.join (s.toList.map escape_char)

/-! ### JSON-like values and Python runtime types -/

inductive Value where
  | vStr : String → Value
  | vInt : Int → Value
  | vList : List Value → Value
  | vDict : List (String × Value) → Value
  | vNone : Value

open Value

/-- The `type` entries appearing in the importer's mapping tables
(`str`, `int`, `dict`, `list`). -/
inductive PyType where
  | pStr | pInt | pDict | pList
deriving DecidableEq

/-- `JiraImporter.validate_input` / `RedmineExporter.validate_input`:
`isinstance(input_data, input_types)` for a single expected type. -/
def validate_input (input_data : Value) (input_type : PyType) : Bool :=
  match input_data, input_type with
  | vStr _, .pStr => true
  | vInt _, .pInt => true
  | vDict _, .pDict => true
  | vList _, .pList => true
  | _, _ => false

/-- `sanitize_input`: HTML-escape strings, return anything else unchanged. -/
def sanitize_input (input_data : Value) : Value :=
  match input_data with
  | vStr s => vStr (html_escape s)
  | v => v

/-! ### Association-list operations standing for Python dict access -/

def getField : List (String × Value) → String → Option Value
  | [], _ => none
  | (k0, v0) :: rest, k => if k0 = k then some v0 else getField rest k

/-- Python dict assignment `d[k] = v`. -/
def setField : List (String × Value) → String → Value → List (String × Value)
  | [], k, v => [(k, v)]
  | (k0, v0) :: rest, k, v =>
      if k0 = k then (k0, v) :: rest else (k0, v0) :: setField rest k v

/-! ### The importer's mapping tables (`JiraImporter.__init__`) -/

structure FieldMapping where
  mapping : String
  ptype : PyType
  sanitize : Bool

def lookupMapping : List (String × FieldMapping) → String → Option FieldMapping
  | [], _ => none
  | (k0, m0) :: rest, k => if k0 = k then some m0 else lookupMapping rest k

def fields_mappings : List (String × FieldMapping) :=
  [("subject", ⟨"summary", .pStr, true⟩),
   ("description", ⟨"description", .pStr, true⟩),
   ("author", ⟨"reporter", .pDict, true⟩),
   ("assigned_to", ⟨"assignee", .pDict, true⟩),
   ("project", ⟨"project", .pDict, true⟩),
   ("priority", ⟨"priority", .pDict, true⟩),
   ("start_date", ⟨"customfield_10015", .pStr, false⟩),
   ("due_date", ⟨"duedate", .pStr, false⟩),
   ("created_on", ⟨"customfield_10075", .pStr, false⟩),
   ("updated_on", ⟨"customfield_10076", .pStr, false⟩),
   ("closed_on", ⟨"customfield_10077", .pStr, false⟩),
   ("estimated_hours", ⟨"customfield_10078", .pInt, false⟩),
   ("labels", ⟨"labels", .pList, true⟩),
   ("fix_versions", ⟨"fixVersions", .pList, true⟩),
   ("attachments", ⟨"attachments", .pList, true⟩),
   ("journals", ⟨"journals", .pList, true⟩)]

def priority_mappings : List (String × FieldMapping) :=
  [("(1) Immediate", ⟨"Highest", .pStr, false⟩),
   ("(2) Urgent", ⟨"High", .pStr, false⟩),
   ("(3) High", ⟨"Medium", .pStr, false⟩),
   ("(4) Normal", ⟨"Low", .pStr, false⟩),
   ("(5) Low", ⟨"Lowest", .pStr, false⟩)]

/-- `JiraImporter.set_field_value`: look the field up in the mapping
dict; on a missing mapping or a failed type check only log (no change to
the payload); otherwise optionally sanitize and write under the mapped
destination field id. -/
def set_field_value (jiraFields : List (String × Value)) (fieldName : String)
    (value : Value) (mappingDict : List (String × FieldMapping)) :
    List (String × Value) :=
  match lookupMapping mappingDict fieldName with
  | none => jiraFields
  | some fm =>
      if ¬ validate_input value fm.ptype then jiraFields
      else
        let value := if fm.sanitize then sanitize_input value else value
        setField jiraFields fm.mapping value

/-! ### Issue records (one line of the exported NDJSON file) -/

/-- A named sub-object such as `author`, `assigned_to`, `priority`,
`category`: a dict that may or may not carry a `name`. -/
structure NamedRef where
  name : Option String

/-- The `issue_data["issue"]` object, with the fields the importer reads. -/
structure IssueRecord where
  id : Int
  subject : String
  description : String
  trackerName : String
  statusName : String
  author : Option NamedRef
  assigned_to : Option NamedRef
  priority : Option NamedRef
  category : Option NamedRef
  start_date : Option String
  due_date : Option String
  created_on : Option String
  updated_on : Option String
  closed_on : Option String
  estimated_hours : Option Int

/-- A destination user directory entry, as returned by `get_user`. -/
structure JiraUser where
  accountId : Option String

/-! ### The importer's per-field handlers (`JiraImporter.handle_*`)

Each handler takes the current `jira_issue["fields"]` dict and returns the
updated dict.  The destination user directory (`get_user`, a network call)
is passed in as a function. -/

def handle_reporter (userLookup : String → Option JiraUser)
    (issue : IssueRecord) (fields : List (String × Value)) :
    List (String × Value) :=
  match issue.author with
  | none => fields
  | some reporterInfo =>
    match reporterInfo.name with
    | none => fields
    | some oldName =>
      match userLookup oldName with
      | none =>
          setField fields "reporter"
            (vDict [("name", vStr "Anonymous"),
                    ("id", vStr "63776502489de2f7f46267eb")])
      | some u =>
        match u.accountId with
        | none => fields
        | some rid => setField fields "reporter" (vDict [("id", vStr rid)])

def handle_assignee (userLookup : String → Option JiraUser)
    (issue : IssueRecord) (fields : List (String × Value)) :
    List (String × Value) :=
  match issue.assigned_to with
  | none => fields
  | some assigneeInfo =>
    match assigneeInfo.name with
    | none => fields
    | some oldName =>
      match userLookup oldName with
      | none => setField fields "assignee" vNone
      | some u =>
        match u.accountId with
        | none => fields
        | some aid => setField fields "assignee" (vDict [("id", vStr aid)])

/-- One date handler; `handle_start_date` .. `handle_closed_on` all read an
optional string field and pass it to `set_field_value` when present. -/
def handle_date_field (fieldName : String) (fieldValue : Option String)
    (fields : List (String × Value)) : List (String × Value) :=
  match fieldValue with
  | none => fields
  | some s => set_field_value fields fieldName (vStr s) fields_mappings

def handle_dates (issue : IssueRecord) (fields : List (String × Value)) :
    List (String × Value) :=
  handle_date_field "closed_on" issue.closed_on
    (handle_date_field "updated_on" issue.updated_on
      (handle_date_field "created_on" issue.created_on
        (handle_date_field "due_date" issue.due_date
          (handle_date_field "start_date" issue.start_date fields))))

/-- `JiraImporter.handle_priority`: only acts when the source priority has
a name that is present in `priority_mappings`; an absent name silently
leaves the fields dict untouched (no warning is logged, nothing raised).
The second component collects the log lines the handler emits. -/
def handle_priority (issue : IssueRecord) (fields : List (String × Value)) :
    List (String × Value) × List String :=
  match issue.priority with
  | none => (fields, [])
  | some oldPriority =>
    match oldPriority.name with
    | none => (fields, [])
    | some oldPriorityName =>
      match lookupMapping priority_mappings oldPriorityName with
      | none => (fields, [])
      | some pm =>
          let newPriorityName :=
            if pm.sanitize then html_escape pm.mapping else pm.mapping
          let newPriorityValue := vDict [("name", vStr newPriorityName)]
          (set_field_value fields "priority" newPriorityValue fields_mappings,
           [])

/-- Python `str.strip` restricted to spaces, as applied to category names. -/
def stripSpaces (s : String) : String :=
  ((s.toList.dropWhile (· = ' ')).reverse.dropWhile (· = ' ')).reverse.asString

def handle_category (issue : IssueRecord) (fields : List (String × Value)) :
    List (String × Value) :=
  match issue.category with
  | none => set_field_value fields "labels" (vList []) fields_mappings
  | some category =>
    match category.name with
    | none => set_field_value fields "labels" (vList []) fields_mappings
    | some nm =>
        let categoryName := (stripSpaces nm).replace " " "_"
        set_field_value fields "labels" (vList [vStr categoryName])
          fields_mappings

def handle_estimated_hours (issue : IssueRecord)
    (fields : List (String × Value)) : List (String × Value) :=
  match issue.estimated_hours with
  | none => fields
  | some h => set_field_value fields "estimated_hours" (vInt h) fields_mappings

/-! ### `JiraImporter.issues_setup`, payload construction (lines 458-480)

The source computes a sanitized deep copy of the issue (subject and
description passed through `sanitize_input`) but then builds `jira_issue`
from the ORIGINAL `issue_data`; the sanitized copy is never read again.
The dead bindings below reproduce that. -/

def issues_setup_payload (projectKey : String)
    (userLookup : String → Option JiraUser) (issue : IssueRecord) :
    List (String × Value) :=
  let _sanitized_subject := sanitize_input (vStr issue.subject)
  let _sanitized_description := sanitize_input (vStr issue.description)
  let fields0 : List (String × Value) :=
    [("project", vDict [("key", vStr projectKey)]),
     ("summary", vStr issue.subject),
     ("description", vStr issue.description),
     ("issuetype", vDict [("name", vStr issue.trackerName)])]
  let f1 := handle_reporter userLookup issue fields0
  let f2 := handle_assignee userLookup issue f1
  let f3 := handle_dates issue f2
  let f4 := (handle_priority issue f3).1
  let f5 := handle_category issue f4
  handle_estimated_hours issue f5

/-! ### The importer's exception taxonomy and `handle_http_error` -/

/-- The `JiraExportError` hierarchy of `_importer.py`. -/
inductive JiraError where
  | badRequest
  | authentication
  | permission
  | notFound
  | requestTimeout
  | tooManyRequests
  | serverError
  | attachmentError
  | exportError
deriving DecidableEq, Repr

/-- A Python exception as seen at a `try` / `with` boundary. -/
inductive PyExc where
  | keyboardInterrupt
  | jiraExc (e : JiraError)
  | valueError
  | otherExc
deriving DecidableEq, Repr

/-- `JiraImporter.handle_http_error`: classify the HTTP status of a failed
response and raise the matching `JiraExportError` subclass (every branch
raises). -/
def handle_http_error (status : Nat) : JiraError :=
  if status = 400 then .badRequest
  else if status = 401 then .authentication
  else if status = 403 then .permission
  else if status = 404 then .notFound
  else if status = 408 then .requestTimeout
  else if status = 429 then .tooManyRequests
  else if 500 ≤ status ∧ status < 600 then .serverError
  else .exportError

/-- `response.raise_for_status()` does not raise exactly on 2xx (and 1xx /
3xx) statuses; for the calls modelled here only success (2xx) matters. -/
def http_ok (status : Nat) : Bool :=
  decide (status < 400)

/-! ### `RateLimiter.__enter__` / `__exit__` (src/utils/_ratelimiter.py)

`__exit__` returns `False` when the in-flight exception is
`KeyboardInterrupt` and `True` for every other exception type; when no
exception is in flight it falls off the end and returns `None` (falsy). -/

/-- The truthiness of the value `RateLimiter.__exit__` returns, given the
exception type active at block exit (`none` = no exception). -/
def rate_limiter_exit (excType : Option PyExc) : Bool :=
  match excType with
  | none => false
  | some e => if e = .keyboardInterrupt then false else true

/-- `with self.rate_limiter: body` — Python suppresses an exception
escaping the body exactly when `__exit__` returns a truthy value. -/
def with_rate_limiter (body : Except PyExc Unit) : Except PyExc Unit :=
  match body with
  | .ok _ => .ok ()
  | .error e => if rate_limiter_exit (some e) then .ok () else .error e

/-! ### `JiraImporter.handle_attachments` -/

/-- Outcome of the attachment-upload POST for one attachment. -/
inductive UploadResult where
  | success
  | httpError (status : Nat)
  | otherError
deriving DecidableEq, Repr

/-- One entry of `issue_data["attachments"]` together with the local-file
facts and destination response the handler observes for it. -/
structure AttachmentCase where
  name : String
  fileExists : Bool
  size : Nat
  allowedType : Bool
  upload : UploadResult

/-- `JiraImporter.handle_attachments`, returning the names of the
attachments whose upload POST was actually attempted and the exception (if
any) escaping the handler.  Validation failures (missing file, oversize,
disallowed type) `continue` to the next attachment; an upload HTTP error
goes through `handle_http_error` (which raises), and any other upload
error raises `JiraAttachmentError` — both abort the remaining list. -/
def handle_attachments (maximum_file_size : Nat) :
    List AttachmentCase → List String × Option JiraError
  | [] => ([], none)
  | a :: rest =>
      if ¬ a.fileExists then handle_attachments maximum_file_size rest
      else if maximum_file_size < a.size then
        handle_attachments maximum_file_size rest
      else if ¬ a.allowedType then handle_attachments maximum_file_size rest
      else
        match a.upload with
        | .success =>
            let (u, e) := handle_attachments maximum_file_size rest
            (a.name :: u, e)
        | .httpError s => ([a.name], some (handle_http_error s))
        | .otherError => ([a.name], some .attachmentError)

/-! ### `JiraImporter.handle_journals` (per journal) and the journal loop -/

structure JournalCase where
  notes : Option String
  postStatus : Nat

/-- The `for journal in issue_data["journals"]` loop: each journal with
empty notes is skipped; a failing comment POST goes through
`handle_http_error` (raises) or raises `JiraExportError`, aborting the
remaining journals.  Returns the number of comments successfully posted
and the escaping exception, if any. -/
def handle_journals_loop : List JournalCase → Nat × Option JiraError
  | [] => (0, none)
  | j :: rest =>
      match j.notes with
      | none => handle_journals_loop rest
      | some _ =>
          if http_ok j.postStatus then
            let (n, e) := handle_journals_loop rest
            (n + 1, e)
          else (0, some (handle_http_error j.postStatus))

/-! ### `JiraImporter.issues_setup`, control flow (lines 482-525) -/

/-- What the destination API does for the status-transition step. -/
inductive TransitionCase where
  | noTransitionFound
  | transitionStatus (status : Nat)
deriving DecidableEq, Repr

/-- Everything about one input item that determines the control flow of
`issues_setup`: the HTTP status of the issue-creation POST, the
attachment cases, the journal cases, and the transition outcome. -/
structure ItemBehavior where
  createStatus : Nat
  attachments : List AttachmentCase
  journals : List JournalCase
  transition : TransitionCase

/-- Which steps of `issues_setup` ran for one item. -/
structure SetupTrace where
  created : Bool
  attachmentsAttempted : List String
  journalsPosted : Nat
  transitionAttempted : Bool
deriving DecidableEq, Repr

/-- The body of `issues_setup` inside the `with self.rate_limiter:` block.

* A failing creation POST raises `requests.HTTPError`, whose handler calls
  `handle_http_error`; the `JiraExportError` subclass raised there escapes
  the `try` directly (the sibling `except Exception` clause does not catch
  exceptions raised inside another handler of the same `try`).
* Exceptions raised by `handle_attachments` / `handle_journals` / the
  transition block are `JiraExportError` subclasses, so they are caught by
  `except Exception`, logged, and re-raised as a plain
  `JiraExportError` — and the later steps of the item never run. -/
def issues_setup_run (maximum_file_size : Nat) (it : ItemBehavior) :
    SetupTrace × Option JiraError :=
  if ¬ http_ok it.createStatus then
    (⟨false, [], 0, false⟩, some (handle_http_error it.createStatus))
  else
    let (attempted, attErr) :=
      handle_attachments maximum_file_size it.attachments
    match attErr with
    | some _ => (⟨true, attempted, 0, false⟩, some .exportError)
    | none =>
      let (posted, jErr) := handle_journals_loop it.journals
      match jErr with
      | some _ => (⟨true, attempted, posted, false⟩, some .exportError)
      | none =>
        match it.transition with
        | .noTransitionFound => (⟨true, attempted, posted, true⟩, none)
        | .transitionStatus s =>
            if http_ok s then (⟨true, attempted, posted, true⟩, none)
            else (⟨true, attempted, posted, true⟩, some .exportError)

/-- `issues_setup` as called: body wrapped in `with self.rate_limiter:`,
whose `__exit__` suppresses every non-`KeyboardInterrupt` exception (the
body only ever raises `JiraExportError` subclasses). -/
def issues_setup_with_limiter (maximum_file_size : Nat) (it : ItemBehavior) :
    SetupTrace × Option PyExc :=
  let r := issues_setup_run maximum_file_size it
  match r.2 with
  | none => (r.1, none)
  | some j =>
      if rate_limiter_exit (some (.jiraExc j)) then (r.1, none)
      else (r.1, some (.jiraExc j))

/-- The per-line loop of `JiraImporter.import_issues` (fresh run): each
line's `issues_setup` call sits in a `try` whose `except Exception` logs
and continues; only a `KeyboardInterrupt` stops the loop (`sys.exit`).
Returns the traces of the items actually processed. -/
def import_issues_traces (maximum_file_size : Nat) :
    List ItemBehavior → List SetupTrace
  | [] => []
  | it :: rest =>
      let r := issues_setup_with_limiter maximum_file_size it
      if r.2 = some .keyboardInterrupt then [r.1]
      else r.1 :: import_issues_traces maximum_file_size rest

/-! ### `RedmineExporter.fetch_data` / `fetch_data_with_pagination`
(src/utils/_exporter.py lines 107-134)

`fetch_data` turns any `requests` transport error into `None`; the
pagination loop requests pages keyed by the `offset` parameter, appends
each page's `issues`, stops on a `None` response (network failure or a
body with no `issues` key) or on an empty page, and otherwise advances
the offset by the number of items just received.  The server is modelled
as a function from offset to an optional response body; an explicit fuel
argument bounds the number of requests the model makes (the theorems only
use runs whose fuel covers the requests actually issued). -/

/-- One Redmine list-response body: the `issues` page plus the
`total_count` the server reports alongside it. -/
structure PageResponse where
  issues : List Int
  total_count : Nat

def fetch_data_with_pagination (server : Nat → Option PageResponse) :
    Nat → Nat → List Int
  | 0, _ => []
  | fuel + 1, offset =>
      match server offset with
      | none => []
      | some response_data =>
          let current_data := response_data.issues
          if current_data.length = 0 then current_data
          else
            current_data ++
              fetch_data_with_pagination server fuel
                (offset + current_data.length)

/-- Number of page requests `fetch_data_with_pagination` issues. -/
def pagination_requests (server : Nat → Option PageResponse) :
    Nat → Nat → Nat
  | 0, _ => 0
  | fuel + 1, offset =>
      match server offset with
      | none => 1
      | some response_data =>
          let current_data := response_data.issues
          if current_data.length = 0 then 1
          else
            1 + pagination_requests server fuel (offset + current_data.length)

/-- `Serves server offset pages`: starting at `offset`, the server answers
the exporter's successive requests with exactly `pages`, every page before
the last being non-empty and the last being the first empty page.  This is
the claim's "sequence of pages returned by the list endpoint". -/
inductive Serves (server : Nat → Option PageResponse) :
    Nat → List (List Int) → Prop
  | last (offset : Nat) (r : PageResponse) :
      server offset = some r → r.issues = [] → Serves server offset [[]]
  | step (offset : Nat) (r : PageResponse) (ps : List (List Int)) :
      server offset = some r → r.issues ≠ [] →
      Serves server (offset + r.issues.length) ps →
      Serves server offset (r.issues :: ps)

/-- `ServesThenFails server offset pages`: the server answers with the
non-empty `pages` and then the next request fails at the transport level
(`fetch_data` returns `None`). -/
inductive ServesThenFails (server : Nat → Option PageResponse) :
    Nat → List (List Int) → Prop
  | fail (offset : Nat) :
      server offset = none → ServesThenFails server offset []
  | step (offset : Nat) (r : PageResponse) (ps : List (List Int)) :
      server offset = some r → r.issues ≠ [] →
      ServesThenFails server (offset + r.issues.length) ps →
      ServesThenFails server offset (r.issues :: ps)

/-! ### The older pagination variant `RedmineExporter.fetch_issues`
(src/main.py lines 47-85)

This loop appends each page, then stops as soon as the accumulated count
reaches the server-reported `total_count`, and otherwise advances the
offset by the fixed `limit` (100).  A transport error calls
`sys.exit(1)`, modelled as `none`. -/

def main_fetch_issues_loop (server : Nat → Option PageResponse) :
    Nat → Nat → List Int → Option (List Int)
  | 0, _, issues => some issues
  | fuel + 1, offset, issues =>
      match server offset with
      | none => none
      | some data =>
          let issues := issues ++ data.issues
          if data.total_count ≤ issues.length then some issues
          else main_fetch_issues_loop server fuel (offset + 100) issues

/-! ### Checkpoint store (`save_progress` / `load_progress`,
src/utils/_exporter.py lines 351-359)

`save_progress` writes `str(i)`; `load_progress` returns 0 when the file
is absent and `int(contents)` otherwise.  The file contents are modelled
as the most-significant-first decimal digit string that `str` produces
and `int` parses. -/

/-- The progress file: `none` when absent, otherwise its decimal text,
held as the digit list most-significant first. -/
def save_progress (current_issue_index : Nat) : Option (List Nat) :=
  some (Nat.digits 10 current_issue_index).reverse

/-- `load_progress`: 0 for a missing file, otherwise the parsed integer. -/
def load_progress (progress_file : Option (List Nat)) : Nat :=
  match progress_file with
  | none => 0
  | some ds => Nat.ofDigits 10 ds.reverse

/-! ### `RateLimiter.wait` (src/utils/_ratelimiter.py lines 16-26)

The wall clock (`time.perf_counter`) is a rational number supplied at each
call; `time.sleep(r)` advances it by exactly `r`, and the post-sleep
`perf_counter` reading becomes the new `last_request_time` (the recorded
window start). -/

structure RateLimiter where
  delay : ℚ
  last_request_time : ℚ

def RateLimiter.wait (rl : RateLimiter) (now : ℚ) : RateLimiter :=
  let elapsed_time := now - rl.last_request_time
  if elapsed_time < rl.delay then
    let remaining_time := rl.delay - elapsed_time
    { rl with last_request_time := now + remaining_time }
  else
    { rl with last_request_time := now }

/-- The recorded window starts of a sequence of `wait` calls whose entry
clock readings are `ts`. -/
def RateLimiter.runWaits (rl : RateLimiter) : List ℚ → List ℚ
  | [] => []
  | t :: ts =>
      let rl2 := rl.wait t
      rl2.last_request_time :: rl2.runWaits ts

/-! ### The three per-item checkpoint loops (for the checkpoint claims) -/

/-- Outcome of `process_issue` as seen by `RedmineExporter.run`:
`process_issue` catches and logs every exception except
`KeyboardInterrupt`, which it re-raises. -/
inductive ProcessOutcome where
  | processed
  | interrupted
deriving DecidableEq, Repr

/-- The loop of `RedmineExporter.run` (utils/_exporter.py lines 423-434):
`for i, issue in enumerate(issues[current_issue_index:],
current_issue_index + 1): process_issue(...); rate_limiter.wait();
save_progress(i)`.  Returns the sequence of checkpoint values written.
A `KeyboardInterrupt` hits the surrounding handler (`sys.exit(0)`) before
that item's save. -/
def exporter_run_writes (start : Nat) : List ProcessOutcome → List Nat :=
  fun outcomes => go (start + 1) outcomes
where
  go : Nat → List ProcessOutcome → List Nat
    | _, [] => []
    | _, .interrupted :: _ => []
    | i, .processed :: rest => i :: go (i + 1) rest

/-- The per-line loop of `JiraImporter.import_issues` (lines 561-576):
lines at numbers `≤ checkpoint_id` are skipped when resuming; every other
line runs `issues_setup` inside a logging `try`, then the checkpoint file
is rewritten with that line number, whatever the outcome was.  Returns
the checkpoint values written. -/
def import_issues_writes (maximum_file_size : Nat) (checkpoint_id : Nat)
    (start_from_checkpoint : Bool) : Nat → List ItemBehavior → List Nat
  | _, [] => []
  | line_num, it :: rest =>
      if start_from_checkpoint ∧ line_num ≤ checkpoint_id then
        import_issues_writes maximum_file_size checkpoint_id
          start_from_checkpoint (line_num + 1) rest
      else
        let r := issues_setup_with_limiter maximum_file_size it
        if r.2 = some .keyboardInterrupt then []
        else
          line_num ::
            import_issues_writes maximum_file_size checkpoint_id
              start_from_checkpoint (line_num + 1) rest

/-- Outcome of one iteration body in `RedmineExporter.main`
(src/main.py lines 210-227) up to the `save_progress` call: `ok` means
attachment fetch, export and comment fetch all completed, `raised` means
some step threw and the `except` clause logged it. -/
inductive MainStepResult where
  | ok
  | raised
deriving DecidableEq, Repr

/-- The loop of `RedmineExporter.main`: `save_progress(i)` is the LAST
statement inside the per-item `try`, so an item whose processing raises
is logged but its checkpoint value is never written. -/
def main_loop_writes (start : Nat) : List MainStepResult → List Nat :=
  fun results => go (start + 1) results
where
  go : Nat → List MainStepResult → List Nat
    | _, [] => []
    | i, .ok :: rest => i :: go (i + 1) rest
    | i, .raised :: rest => go (i + 1) rest

/-! ### The exporter's status / priority filter maps
(`RedmineExporter.__init__` and `fetch_issues`, utils/_exporter.py)

`fetch_issues` sets `params["status_id"] = status_map.get(status,
str(status))` — an id absent from the table falls back to its own decimal
string, with no log statement on that path (the enclosing code only logs
the generic "Fetching issues ..." info lines). -/

def lookupTable : List (Int × String) → Int → Option String
  | [], _ => none
  | (k0, v0) :: rest, k => if k0 = k then some v0 else lookupTable rest k

def status_map : List (Int × String) :=
  [(1, "1"), (2, "2"), (3, "3"), (4, "4"), (5, "5"), (6, "6"),
   (7, "7"), (8, "8"), (9, "9"), (10, "10"), (11, "11"), (12, "12")]

def priority_map : List (Int × String) :=
  [(1, "1"), (2, "2"), (3, "3"), (4, "4"), (5, "5")]

/-- The `status_id` request parameter `fetch_issues` sends, paired with
the warnings logged while computing it (the source logs none). -/
def exporter_status_param (status : Int) : String × List String :=
  match lookupTable status_map status with
  | some s => (s, [])
  | none => (toString status, [])

/-- The `priority_id` request parameter, same shape. -/
def exporter_priority_param (priority : Int) : String × List String :=
  match lookupTable priority_map priority with
  | some s => (s, [])
  | none => (toString priority, [])

/-! ### Concrete inputs used by the counterexamples and witnesses -/

/-- An issue record with everything optional absent. -/
def simpleIssue (subject description : String) (priority : Option NamedRef) :
    IssueRecord :=
  ⟨1, subject, description, "Bug", "New", none, none, priority, none,
   none, none, none, none, none, none⟩

/-- An input item whose issue-creation POST is answered with HTTP 401. -/
def item401 : ItemBehavior := ⟨401, [], [], .noTransitionFound⟩

/-- An input item whose processing succeeds end to end. -/
def itemOK : ItemBehavior := ⟨201, [], [], .noTransitionFound⟩

/-- Issue with three valid attachments of which the second one's upload
POST fails with a 500, one journal with notes, and a working transition. -/
def itemC5 : ItemBehavior :=
  ⟨201,
   [⟨"a.png", true, 10, true, .success⟩,
    ⟨"b.png", true, 10, true, .httpError 500⟩,
    ⟨"c.png", true, 10, true, .success⟩],
   [⟨some "a note", 201⟩],
   .transitionStatus 204⟩

/-- A valid attachment whose upload succeeds. -/
def attOK : AttachmentCase := ⟨"a.png", true, 10, true, .success⟩

/-- A valid attachment whose upload POST fails with HTTP 500. -/
def attBad500 : AttachmentCase := ⟨"b.png", true, 10, true, .httpError 500⟩

/-- An attachment whose local file is missing (validation skip). -/
def attMissing : AttachmentCase := ⟨"gone.txt", false, 1, true, .success⟩

/-- Issue whose sanitize-flagged subject carries markup. -/
def c2_issue : IssueRecord :=
  simpleIssue "<script>alert(1)</script>" "plain description" none

/-- Issue whose priority name is absent from `priority_mappings`. -/
def c8_issue : IssueRecord := simpleIssue "s" "d" (some ⟨some "Critical"⟩)

/-- A Redmine server whose first page holds one issue with a (stale)
`total_count` of 1, while the next page (offset 100, as requested by the
main.py variant) still holds an issue; the first empty page comes third. -/
def c3_server (offset : Nat) : Option PageResponse :=
  if offset = 0 then some ⟨[1], 1⟩
  else if offset = 100 then some ⟨[2], 5⟩
  else some ⟨[], 0⟩

/-- A server that serves one page of one issue and then fails at the
transport level on the request for the second page (offset 1). -/
def c4_server (offset : Nat) : Option PageResponse :=
  if offset = 0 then some ⟨[7], 3⟩ else none

/-- A three-page server for the pagination witness: pages [3,4], [5] and
the terminating empty page, with arbitrary total counts. -/
def c3_witness_server (offset : Nat) : Option PageResponse :=
  if offset = 0 then some ⟨[3, 4], 42⟩
  else if offset = 2 then some ⟨[5], 0⟩
  else if offset = 3 then some ⟨[], 7⟩
  else none

/-! ## Helper lemmas -/

/-- Inside `issues_setup` only `JiraExportError` subclasses are raised, and
`RateLimiter.__exit__` suppresses them all, so the wrapped call never lets
an exception escape. -/
theorem issues_setup_with_limiter_err (m : Nat) (it : ItemBehavior) :
    (issues_setup_with_limiter m it).2 = none := by
  unfold issues_setup_with_limiter
  cases h : (issues_setup_run m it).2 <;> simp [h, rate_limiter_exit]

theorem RateLimiter.wait_delay (rl : RateLimiter) (t : ℚ) :
    (rl.wait t).delay = rl.delay := by
  unfold RateLimiter.wait
  dsimp only
  split <;> rfl

/-- One `wait` call records a window start at least `delay` after the
previously recorded one. -/
theorem RateLimiter.wait_last_ge (rl : RateLimiter) (t : ℚ) :
    rl.last_request_time + rl.delay ≤ (rl.wait t).last_request_time := by
  unfold RateLimiter.wait
  dsimp only
  split
  · ring_nf
    linarith
  · linarith [not_lt.mp (by assumption : ¬ t - rl.last_request_time < rl.delay)]

/-- Consecutive recorded window starts are at least `delay` apart. -/
theorem RateLimiter.runWaits_chain (d : ℚ) :
    ∀ (rl : RateLimiter) (ts : List ℚ), rl.delay = d →
      List.Chain' (fun a b => a + d ≤ b)
        (rl.last_request_time :: rl.runWaits ts)
  | rl, [], _ => by simp [RateLimiter.runWaits]
  | rl, t :: ts, hd => by
      have h1 := rl.wait_last_ge t
      have h2 := runWaits_chain d (rl.wait t) ts (by rw [rl.wait_delay t, hd])
      simpa [RateLimiter.runWaits, hd ▸ h1] using h2

/-- From a `Chain'` of `≥ d` steps, the last element dominates the first
by `(length - 1) * d`. -/
theorem chain_head_getLast (d : ℚ) :
    ∀ (l : List ℚ), List.Chain' (fun a b => a + d ≤ b) l →
      ∀ h last, l.head? = some h → l.getLast? = some last →
        h + ((l.length - 1 : ℕ) : ℚ) * d ≤ last
  | [], _, h, last => by intro hh; simp at hh
  | [a], _, h, last => by
      intro hh hl
      simp at hh hl
      subst hh; subst hl; simp
  | a :: b :: l, hc, h, last => by
      intro hh hl
      rw [List.chain'_cons] at hc
      have hh2 : a = h := by simpa using hh
      have hl2 : (b :: l).getLast? = some last := by
        simpa [List.getLast?_cons_cons] using hl
      have ih := chain_head_getLast d (b :: l) hc.2 b last rfl hl2
      have hlen : ((a :: b :: l).length - 1 : ℕ) = ((b :: l).length - 1) + 1 := by
        simp
      rw [hlen]
      push_cast
      subst hh2
      linarith [hc.1]

/-! ## Claim theorems -/

/-- Claim C7 (confirmed): saving a non-negative checkpoint index and
loading it back returns the same index, and loading a missing progress
file returns 0. -/
theorem c7_checkpoint_roundtrip (i : Nat) :
    load_progress (save_progress i) = i ∧ load_progress none = 0 := by
  constructor
  · simp [save_progress, load_progress, Nat.ofDigits_digits]
  · rfl

/-- Claim C10 (confirmed): `RateLimiter.__exit__` returns a truthy value
for every exception type other than `KeyboardInterrupt`, so the
`with self.rate_limiter:` block suppresses any such exception and
execution continues after the block; a `KeyboardInterrupt` is propagated. -/
theorem c10_exit_suppresses (e : PyExc) (h : e ≠ .keyboardInterrupt) :
    rate_limiter_exit (some e) = true ∧
    with_rate_limiter (.error e) = .ok () ∧
    with_rate_limiter (.error .keyboardInterrupt) =
      .error .keyboardInterrupt := by
  refine ⟨?_, ?_, rfl⟩ <;> simp [rate_limiter_exit, with_rate_limiter, h]

/-- Witness for C10 at the concrete exception raised for a 401. -/
theorem c10_witness :
    rate_limiter_exit (some (.jiraExc .authentication)) = true ∧
    with_rate_limiter (.error (.jiraExc .authentication)) = .ok () ∧
    with_rate_limiter (.error .keyboardInterrupt) =
      .error .keyboardInterrupt :=
  c10_exit_suppresses (.jiraExc .authentication) (by decide)

/-- Claim C9 (confirmed): for any sequence of completed acquisitions on
one rate limiter with delay `d`, the recorded window starts are pairwise
at least `d` apart, and the span from the first recorded acquisition to
the last is at least `(N - 1) * d`. -/
theorem c9_rate_limiter_span (rl : RateLimiter) (ts : List ℚ)
    (first last : ℚ)
    (hh : (rl.runWaits ts).head? = some first)
    (hl : (rl.runWaits ts).getLast? = some last) :
    List.Chain' (fun a b => a + rl.delay ≤ b) (rl.runWaits ts) ∧
    first + (((rl.runWaits ts).length - 1 : ℕ) : ℚ) * rl.delay ≤ last := by
  have hchain := RateLimiter.runWaits_chain rl.delay rl ts rfl
  have hchain2 : List.Chain' (fun a b => a + rl.delay ≤ b) (rl.runWaits ts) :=
    hchain.tail
  exact ⟨hchain2, chain_head_getLast rl.delay _ hchain2 first last hh hl⟩

/-- Witness for C9: delay 2, initial window start 0, two acquisitions with
entry clock readings 1 and 3; the recorded starts are 2 and 4, spanning
(2 - 1) * 2. -/
theorem c9_witness :
    ((RateLimiter.mk 2 0).runWaits [1, 3]).head? = some 2 ∧
    ((RateLimiter.mk 2 0).runWaits [1, 3]).getLast? = some 4 ∧
    (List.Chain' (fun a b => a + (RateLimiter.mk 2 0).delay ≤ b)
        ((RateLimiter.mk 2 0).runWaits [1, 3]) ∧
      2 + ((((RateLimiter.mk 2 0).runWaits [1, 3]).length - 1 : ℕ) : ℚ) *
          (RateLimiter.mk 2 0).delay ≤ 4) := by
  have h1 : (RateLimiter.mk 2 0).runWaits [1, 3] = [2, 4] := by
    norm_num [RateLimiter.runWaits, RateLimiter.wait]
  have hh : ((RateLimiter.mk 2 0).runWaits [1, 3]).head? = some 2 := by
    rw [h1]; rfl
  have hl : ((RateLimiter.mk 2 0).runWaits [1, 3]).getLast? = some 4 := by
    rw [h1]; rfl
  exact ⟨hh, hl, c9_rate_limiter_span _ _ 2 4 hh hl⟩

/-- Claim C1 is false on the code: a 401 on the issue-creation POST does
raise `JiraAuthenticationError` inside `issues_setup`, but with two items
in the input file of which the first hits the 401, the second item is
still fully processed (its trace shows a created issue). -/
theorem c1_counterexample :
    (issues_setup_run 1000 item401).2 = some .authentication ∧
    import_issues_traces 1000 [item401, itemOK] =
      [⟨false, [], 0, false⟩, ⟨true, [], 0, true⟩] := by
  decide

/-- Claim C1 as amended: a destination call failing with 401 raises
`JiraAuthenticationError` via `handle_http_error`, but the rate-limiter
context manager suppresses it at the end of `issues_setup` (and the
per-line `try` of `import_issues` catches any escaping
non-`KeyboardInterrupt` exception), so the run is not aborted: every item
of the input file is
still processed. -/
theorem c1_amended (m : Nat) (items : List ItemBehavior) :
    handle_http_error 401 = .authentication ∧
    with_rate_limiter (.error (.jiraExc .authentication)) = .ok () ∧
    (import_issues_traces m items).length = items.length := by
  refine ⟨by decide, rfl, ?_⟩
  induction items with
  | nil => rfl
  | cons it rest ih =>
      simp [import_issues_traces, issues_setup_with_limiter_err m it, ih]

/-- Claim C2 concerns a code bug: `subject` and `description` are
sanitize-flagged in `fields_mappings`, and `issues_setup` even computes a
sanitized copy of them, but the POSTed payload is built from the raw
issue, so a subject holding `<script>` markup reaches the destination
unescaped; the `set_field_value` path (last conjunct) does escape
sanitize-flagged string fields, which the direct construction bypasses. -/
theorem c2_sanitize_bug :
    getField (issues_setup_payload "PRJ" (fun _ => none) c2_issue) "summary"
      = some (vStr "<script>alert(1)</script>") ∧
    lookupMapping fields_mappings "subject" = some ⟨"summary", .pStr, true⟩ ∧
    html_escape "<script>alert(1)</script>" =
      "&lt;script&gt;alert(1)&lt;/script&gt;" ∧
    "<script>alert(1)</script>" ≠ "&lt;script&gt;alert(1)&lt;/script&gt;" ∧
    set_field_value [] "subject" (vStr "<script>alert(1)</script>")
        fields_mappings
      = [("summary", vStr "&lt;script&gt;alert(1)&lt;/script&gt;")] := by
  exact ⟨rfl, rfl, rfl, by decide, rfl⟩

/-- Claim C5 is false on the code: in `itemC5` the second of three valid
attachments fails its upload POST (HTTP 500, classified `JiraServerError`
and re-raised); the third attachment is never attempted, no journal
comment is posted (the item has one), and the status transition is never
attempted. -/
theorem c5_counterexample :
    (handle_attachments 1000 itemC5.attachments).2 = some .serverError ∧
    (issues_setup_run 1000 itemC5).1 = ⟨true, ["a.png", "b.png"], 0, false⟩ ∧
    "c.png" ∉ (issues_setup_run 1000 itemC5).1.attachmentsAttempted ∧
    itemC5.journals.length = 1 ∧
    (issues_setup_run 1000 itemC5).2 = some .exportError := by
  decide

/-- Claim C5 as amended: a validation failure (missing file — and likewise
oversize or disallowed type) skips only that attachment, but a failure of
an attachment's upload POST raises out of `handle_attachments`, so the
remaining attachments are not attempted and the journal-comment and
status-transition steps are skipped for that issue (the issue itself
having already been created). -/
theorem c5_amended (m : Nat) (a b : AttachmentCase)
    (rest : List AttachmentCase) (s : Nat) (it : ItemBehavior)
    (ha : ¬ a.fileExists ∨ m < a.size ∨ ¬ a.allowedType)
    (hb1 : b.fileExists = true) (hb2 : b.size ≤ m)
    (hb3 : b.allowedType = true) (hb4 : b.upload = .httpError s)
    (hcreate : http_ok it.createStatus = true)
    (hatt : (handle_attachments m it.attachments).2 ≠ none) :
    handle_attachments m (a :: rest) = handle_attachments m rest ∧
    handle_attachments m (b :: rest) = ([b.name], some (handle_http_error s)) ∧
    (issues_setup_run m it).1.journalsPosted = 0 ∧
    (issues_setup_run m it).1.transitionAttempted = false := by
  refine ⟨?_, ?_, ?_⟩
  · rcases ha with h | h | h
    · simp [handle_attachments, h]
    · by_cases hf : a.fileExists <;> simp [handle_attachments, hf, h]
    · by_cases hf : a.fileExists <;> by_cases hs : m < a.size <;>
        simp [handle_attachments, hf, hs, h]
  · simp [handle_attachments, hb1, hb3, hb4, Nat.not_lt.mpr hb2]
  · unfold issues_setup_run
    rw [if_neg (by simp [hcreate])]
    rcases h : handle_attachments m it.attachments with ⟨att, err⟩
    cases err with
    | none => simp [h] at hatt
    | some j => simp [h]

/-- Witness for C5's amended theorem at the concrete attachments of
`itemC5` plus a missing-file attachment. -/
theorem c5_witness :
    handle_attachments 1000 (attMissing :: [attOK]) =
      handle_attachments 1000 [attOK] ∧
    handle_attachments 1000 (attBad500 :: [attOK]) =
      ([attBad500.name], some (handle_http_error 500)) ∧
    (issues_setup_run 1000 itemC5).1.journalsPosted = 0 ∧
    (issues_setup_run 1000 itemC5).1.transitionAttempted = false :=
  c5_amended 1000 attMissing attBad500 [attOK] 500 itemC5 (by decide)
    (by decide) (by decide) (by decide) (by decide) (by decide) (by decide)

/-- Claim C8 is false on the code: a source priority name absent from
`priority_mappings` ("Critical") makes `handle_priority` leave the
payload untouched — the priority field is dropped (absent from the
fields), not passed through, and no warning is logged. -/
theorem c8_counterexample :
    handle_priority c8_issue [("summary", vStr "s")] =
      ([("summary", vStr "s")], []) ∧
    getField [("summary", vStr "s")] "priority" = none ∧
    lookupMapping priority_mappings "Critical" = none := by
  exact ⟨rfl, rfl, rfl⟩

/-- Claim C8 as amended: in the exporter's `fetch_issues` a status id
absent from `status_map` is passed through unmodified as its decimal
string but WITHOUT any logged warning; in the importer's
`handle_priority` an unmapped priority name silently leaves the priority
field out of the payload; neither path raises. -/
theorem c8_amended (s : Int) (issue : IssueRecord)
    (fields : List (String × Value)) (nm : String)
    (hs : lookupTable status_map s = none)
    (hpr : issue.priority = some ⟨some nm⟩)
    (hnm : lookupMapping priority_mappings nm = none) :
    exporter_status_param s = (toString s, []) ∧
    handle_priority issue fields = (fields, []) := by
  constructor
  · simp [exporter_status_param, hs]
  · simp [handle_priority, hpr, hnm]

/-- Witness for C8's amended theorem: status id 99 and the priority name
"Critical" of `c8_issue`. -/
theorem c8_witness :
    exporter_status_param 99 = (toString (99 : Int), []) ∧
    handle_priority c8_issue [("summary", vStr "s")] =
      ([("summary", vStr "s")], []) :=
  c8_amended 99 c8_issue [("summary", vStr "s")] "Critical" (by decide) rfl
    rfl

/-- Claim C3 as amended: the property holds for
`RedmineExporter.fetch_data_with_pagination` (utils/_exporter.py): given
any sequence of pages the endpoint returns — whatever `total_count`
values accompany them — the fetch returns their concatenation in request
order and issues exactly one request per page, stopping at the first
empty page.  (The older variant in main.py does not satisfy this; see the
counterexample.) -/
theorem c3_pagination (server : Nat → Option PageResponse) (offset : Nat)
    (pages : List (List Int)) (fuel : Nat)
    (hserves : Serves server offset pages) (hfuel : pages.length ≤ fuel) :
    fetch_data_with_pagination server fuel offset = pages.flatten ∧
    pagination_requests server fuel offset = pages.length := by
  induction hserves generalizing fuel with
  | last offset r hr hempty =>
      obtain ⟨f, rfl⟩ : ∃ f, fuel = f + 1 :=
        ⟨fuel - 1, by simp at hfuel; omega⟩
      constructor <;>
        simp [fetch_data_with_pagination, pagination_requests, hr, hempty]
  | step offset r ps hr hne hs ih =>
      obtain ⟨f, rfl⟩ : ∃ f, fuel = f + 1 :=
        ⟨fuel - 1, by simp at hfuel; omega⟩
      have hf : ps.length ≤ f := by simp at hfuel; omega
      obtain ⟨ih1, ih2⟩ := ih f hf
      constructor <;>
        simp [fetch_data_with_pagination, pagination_requests, hr, hne, ih1,
          ih2]
      omega

/-- Witness for C3's amended theorem: three pages `[3,4]`, `[5]`, `[]`
with stale total counts 42, 0, 7; the fetch returns the concatenation and
makes exactly three requests. -/
theorem c3_witness :
    Serves c3_witness_server 0 [[3, 4], [5], []] ∧
    fetch_data_with_pagination c3_witness_server 3 0 =
      ([[3, 4], [5], []] : List (List Int)).flatten ∧
    pagination_requests c3_witness_server 3 0 = 3 := by
  have hs : Serves c3_witness_server 0 [[3, 4], [5], []] := by
    refine Serves.step 0 ⟨[3, 4], 42⟩ _ rfl (by decide) ?_
    refine Serves.step 2 ⟨[5], 0⟩ _ rfl (by decide) ?_
    exact Serves.last 3 ⟨[], 7⟩ rfl rfl
  have h := c3_pagination c3_witness_server 0 [[3, 4], [5], []] 3 hs
    (by decide)
  exact ⟨hs, h.1, h.2⟩

/-- Claim C3 is false of the older pagination variant
`RedmineExporter.fetch_issues` in src/main.py, which it also names: with
a stale `total_count` of 1 on the first page, that loop stops after one
page and returns `[1]`, although the page at the next requested offset
(100) still contains issue 2 and the first empty page only comes after
it — so the result is not the concatenation up to the first empty page,
and termination depended on the reported total count. -/
theorem c3_counterexample :
    main_fetch_issues_loop c3_server 10 0 [] = some [1] ∧
    c3_server 100 = some ⟨[2], 5⟩ ∧
    (2 : Int) ∉ [(1 : Int)] := by
  refine ⟨rfl, rfl, by decide⟩

/-- Claim C4 as amended: when a transport failure occurs while requesting
a page, `fetch_data` returns `None` and `fetch_data_with_pagination`
breaks out of its loop and returns the items accumulated so far — the
partial list IS handed to the caller; only the older main.py variant
aborts the whole fetch (`sys.exit`, modelled as `none`). -/
theorem c4_amended (server : Nat → Option PageResponse) (offset : Nat)
    (pages : List (List Int)) (fuel : Nat)
    (h : ServesThenFails server offset pages)
    (hfuel : pages.length < fuel) :
    fetch_data_with_pagination server fuel offset = pages.flatten ∧
    (∀ (srv : Nat → Option PageResponse) (off f : Nat) (acc : List Int),
      srv off = none → main_fetch_issues_loop srv (f + 1) off acc = none) := by
  refine ⟨?_, fun srv off f acc hnone => by
    simp [main_fetch_issues_loop, hnone]⟩
  induction h generalizing fuel with
  | fail offset hnone =>
      obtain ⟨f, rfl⟩ : ∃ f, fuel = f + 1 := ⟨fuel - 1, by omega⟩
      simp [fetch_data_with_pagination, hnone]
  | step offset r ps hr hne hs ih =>
      obtain ⟨f, rfl⟩ : ∃ f, fuel = f + 1 := ⟨fuel - 1, by omega⟩
      have hf : ps.length < f := by simp at hfuel; omega
      simp [fetch_data_with_pagination, hr, hne, ih f hf]

/-- Witness for C4's amended theorem: one page `[7]` is served, the
request for offset 1 fails, and the fetch returns the partial list. -/
theorem c4_witness :
    ServesThenFails c4_server 0 [[7]] ∧
    fetch_data_with_pagination c4_server 2 0 =
      ([[7]] : List (List Int)).flatten ∧
    main_fetch_issues_loop c4_server 1 1 [7] = none := by
  have hs : ServesThenFails c4_server 0 [[7]] :=
    ServesThenFails.step 0 ⟨[7], 3⟩ [] rfl (by decide)
      (ServesThenFails.fail 1 rfl)
  have h := c4_amended c4_server 0 [[7]] 2 hs (by decide)
  exact ⟨hs, h.1, h.2 c4_server 1 0 [7] rfl⟩

/-- Claim C4 is false on utils/_exporter.py as the claim states it: the
transport failure at the second page request does not abort the fetch —
the nonempty partial list `[7]` is returned to the caller for further
processing. -/
theorem c4_counterexample :
    fetch_data_with_pagination c4_server 10 0 = [7] ∧ c4_server 1 = none :=
  ⟨rfl, rfl⟩

/-- Helper for C6: the inner loop of `RedmineExporter.run` writes the
consecutive indices when no item is interrupted. -/
theorem exporter_run_go_range (outs : List ProcessOutcome) :
    ∀ i, (∀ o ∈ outs, o = .processed) →
      exporter_run_writes.go i outs = List.range' i outs.length := by
  induction outs with
  | nil => intro i _; rfl
  | cons o rest ih =>
      intro i hall
      have ho : o = .processed := hall o (by simp)
      subst ho
      rw [exporter_run_writes.go, List.length_cons, List.range'_succ i _ 1]
      exact congrArg _ (ih (i + 1) fun o ho => hall o (by simp [ho]))

/-- Helper for C6: the fresh-run loop of `JiraImporter.import_issues`
writes every line number, whatever each line's outcome. -/
theorem import_issues_writes_range (m : Nat) (items : List ItemBehavior) :
    ∀ n, import_issues_writes m 0 false n items =
      List.range' n items.length := by
  induction items with
  | nil => intro n; rfl
  | cons it rest ih =>
      intro n
      rw [import_issues_writes, List.length_cons, List.range'_succ n _ 1]
      simp [issues_setup_with_limiter_err m it, ih (n + 1)]

/-- Claim C6 as amended: in `RedmineExporter.run` (utils/_exporter.py)
and in `JiraImporter.import_issues` the checkpoint is rewritten after
each item with that item's 1-based index, success and logged failure
alike (only an operator interrupt skips it), so a resumed run restarts at
the next unprocessed item.  (The older loop in src/main.py does not
satisfy this; see the counterexample.) -/
theorem c6_amended (start : Nat) (outcomes : List ProcessOutcome) (m : Nat)
    (items : List ItemBehavior) (n : Nat)
    (hall : ∀ o ∈ outcomes, o = .processed) :
    exporter_run_writes start outcomes =
      List.range' (start + 1) outcomes.length ∧
    import_issues_writes m 0 false n items = List.range' n items.length :=
  ⟨exporter_run_go_range outcomes (start + 1) hall,
   import_issues_writes_range m items n⟩

/-- Witness for C6's amended theorem: two processed items resumed after
index 4, and a two-line import file (one line succeeding, one line
hitting a 401 that is logged); checkpoints 5, 6 and 1, 2 are written. -/
theorem c6_witness :
    exporter_run_writes 4 [.processed, .processed] = List.range' 5 2 ∧
    import_issues_writes 1000 0 false 1 [itemOK, item401] =
      List.range' 1 2 :=
  c6_amended 4 [.processed, .processed] 1000 [itemOK, item401] 1 (by decide)

/-- Claim C6 is false of the loop in `RedmineExporter.main` (src/main.py),
which it also names: there `save_progress(i)` is the last statement inside
the per-item `try`, so when item 1 raises (a logged failure) the
checkpoint is never updated to 1 — the next write is 2, after item 2
succeeds. -/
theorem c6_counterexample :
    main_loop_writes 0 [.raised, .ok] = [2] ∧
    1 ∉ main_loop_writes 0 [.raised, .ok] := by
  decide

end RedmineJira
